import Mathlib

/-!
Verification of the auto-followup engine (business-day scheduler, followup
lifecycle, cancellation policy, due-task processor, circuit breaker) against
its natural-language specification.  The definitions below are a shallow
embedding of the Python sources:

* `core/business_days.py`   → dates, weekday, Easter, holidays, `addBusinessDays`
* `services/scheduler.py` + `infrastructure/firestore/repositories.py`
                            → `scheduleForDraft`, `getSentDrafts`, …
* `services/cancellation.py`→ `cancelForDraft`
* `services/processor.py`   → `buildEmailRequest`, `processFollowup`, …
* `infrastructure/circuit_breaker.py` → `recordSuccess`, `recordFailure`, …

Machine integers are modelled as `Nat`/`Int`; the Firestore document store is
modelled as an explicit `Store` value threaded through the operations; the
unbounded Python `while` loop of `add_business_days` is modelled with an
explicit fuel parameter returning `Option`.
-/

set_option maxRecDepth 100000

namespace AutoFollowup

/-! ## Calendar dates (`datetime.date`) -/

/-- A calendar date, mirroring Python's `datetime.date`. -/
structure Date where
  year : Nat
  month : Nat
  day : Nat
deriving DecidableEq, Repr

/-- Gregorian leap-year rule (as in `datetime`). -/
def isLeapYear (y : Nat) : Bool :=
  (y % 4 == 0 && y % 100 != 0) || y % 400 == 0

/-- Number of days in a month of a given year. -/
def daysInMonth (y m : Nat) : Nat :=
  if m == 2 then (if isLeapYear y then 29 else 28)
  else if m == 4 || m == 6 || m == 9 || m == 11 then 30
  else 31

/-- The day after `d` (`d + timedelta(days=1)`). -/
def nextDay (d : Date) : Date :=
  if d.day < daysInMonth d.year d.month then ⟨d.year, d.month, d.day + 1⟩
  else if d.month < 12 then ⟨d.year, d.month + 1, 1⟩
  else ⟨d.year + 1, 1, 1⟩

/-- The day before `d` (`d - timedelta(days=1)`). -/
def prevDay (d : Date) : Date :=
  if 1 < d.day then ⟨d.year, d.month, d.day - 1⟩
  else if 1 < d.month then ⟨d.year, d.month - 1, daysInMonth d.year (d.month - 1)⟩
  else ⟨d.year - 1, 12, 31⟩

/-- `d + timedelta(days=n)` for `n ≥ 0` (tail recursive: one `nextDay` step
per unit). -/
def addDays (d : Date) : Nat → Date
  | 0 => d
  | n + 1 => addDays (nextDay d) n

/-- Python's `date.weekday()`: Monday = 0, …, Sunday = 6.  Computed with
Zeller's congruence (all quantities stay non-negative, so `Nat` arithmetic
agrees with the mathematical value). -/
def pythonWeekday (d : Date) : Nat :=
  let m := if d.month ≤ 2 then d.month + 12 else d.month
  let y := if d.month ≤ 2 then d.year - 1 else d.year
  let K := y % 100
  let J := y / 100
  let h := (d.day + (13 * (m + 1)) / 5 + K + K / 4 + J / 4 + 5 * J) % 7
  (h + 5) % 7

/-- Easter Sunday by the Meeus/Jones/Butcher algorithm
(`business_days._calculate_easter`).  Every intermediate `Nat` subtraction is
applied to a provably larger minuend, so it agrees with Python's `int`
arithmetic. -/
def calculateEaster (year : Nat) : Date :=
  let a := year % 19
  let b := year / 100
  let c := year % 100
  let d := b / 4
  let e := b % 4
  let f := (b + 8) / 25
  let g := (b - f + 1) / 3
  let h := (19 * a + b - d - g + 15) % 30
  let i := c / 4
  let k := c % 4
  let l := (32 + 2 * e + 2 * i - h - k) % 7
  let m := (a + 11 * h + 22 * l) / 451
  let month := (h + l - 7 * m + 114) / 31
  let day := ((h + l - 7 * m + 114) % 31) + 1
  ⟨year, month, day⟩

/-! ## Holiday sets

Python builds a `set` of dates.  We model the set as a `List Date` built with
`setInsert`, which skips elements already present, so the list is duplicate
free and its `length` is the cardinality of the Python set. -/

/-- Field-wise boolean equality of dates (agrees with `=`, see
`dateEq_iff`). -/
def dateEq (a b : Date) : Bool :=
  a.year == b.year && a.month == b.month && a.day == b.day

/-- Membership of a date in a list of dates. -/
def containsDate (d : Date) (l : List Date) : Bool :=
  l.any (fun e => dateEq e d)

/-- Insertion into a duplicate-free list, modelling `set.add`. -/
def setInsert (d : Date) (l : List Date) : List Date :=
  if containsDate d l then l else l ++ [d]

/-- The eight fixed French public holidays of a year, in source order. -/
def fixedHolidayDates (year : Nat) : List Date :=
  [⟨year, 1, 1⟩, ⟨year, 5, 1⟩, ⟨year, 5, 8⟩, ⟨year, 7, 14⟩,
   ⟨year, 8, 15⟩, ⟨year, 11, 1⟩, ⟨year, 11, 11⟩, ⟨year, 12, 25⟩]

/-- The three Easter-derived holidays: Easter Monday, Ascension, Pentecost
Monday. -/
def easterHolidayDates (year : Nat) : List Date :=
  let easter := calculateEaster year
  [addDays easter 1, addDays easter 39, addDays easter 50]

/-- `business_days.get_french_holidays`: the set of the eight fixed holidays
and the three Easter-derived holidays, built by successive set insertions in
source order. -/
def getFrenchHolidays (year : Nat) : List Date :=
  let hs := (fixedHolidayDates year).foldl (fun acc d => setInsert d acc) []
  (easterHolidayDates year).foldl (fun acc d => setInsert d acc) hs

/-- `business_days.is_business_day`: not a weekend day (Saturday = 5,
Sunday = 6) and not a French public holiday of the date's year. -/
def isBusinessDay (d : Date) : Bool :=
  if 5 ≤ pythonWeekday d then false
  else !containsDate d (getFrenchHolidays d.year)

/-! ## Timestamps and `add_business_days` -/

/-- A UTC timestamp: a date plus a second-of-day (`datetime` with `tzinfo =
UTC`; sub-second precision is irrelevant to the engine). -/
structure Timestamp where
  date : Date
  secondOfDay : Nat
deriving DecidableEq, Repr

/-- One o'clock in the morning, as a second-of-day.  `add_business_days`
normalizes its result to 01:00:00 UTC. -/
def oneAmSecond : Nat := 3600

/-- The loop of `add_business_days`: step one calendar day in the given
direction; a step landing on a business day consumes one unit of `remaining`.
The Python loop is unbounded; `fuel` bounds the model, returning `none` when
exhausted (which never happens for the fuel supplied below). -/
def addBusinessDaysGo (dirPos : Bool) : Nat → Date → Nat → Option Date
  | _, cur, 0 => some cur
  | 0, _, _ + 1 => none
  | fuel + 1, cur, r + 1 =>
    let c := if dirPos then nextDay cur else prevDay cur
    if isBusinessDay c then addBusinessDaysGo dirPos fuel c r
    else addBusinessDaysGo dirPos fuel c (r + 1)

/-- Fuel amply sufficient to find `n` business days (at most `7⬝n + 366`
calendar days are ever scanned in practice). -/
def businessDaysFuel (n : Nat) : Nat := 7 * n + 366

/-- `business_days.add_business_days`: advance `abs(businessDays)` business
days in the sign direction of `businessDays` (`direction = 1 if
business_days >= 0 else -1`), then set the time to 01:00:00 UTC. -/
def addBusinessDays (start : Timestamp) (businessDays : Int) : Option Timestamp :=
  match addBusinessDaysGo (decide (0 ≤ businessDays))
      (businessDaysFuel businessDays.natAbs) start.date businessDays.natAbs with
  | some d => some ⟨d, oneAmSecond⟩
  | none => none

/-! ## Document-store data model

A Firestore draft document, with the fields the engine reads.  The services
read two distinct status-like keys: `status` (queried by
`DraftRepository.get_sent_drafts`) and `draft_status` (read by
`EmailDraft.from_firestore` / `is_sent`). -/

structure EmailDraft where
  docId : String
  status : String
  draftStatus : Option String
  sentAt : Option Timestamp
  noFollowup : Bool
  isFollowup : Bool
  followupNumber : Nat
  hasReply : Bool
  followupIds : List String
  followupsScheduled : Bool
  xExternalId : Option String
  versionGroupId : Option String
  subject : Option String
  originalSubject : Option String
  body : Option String
  replyToThreadId : Option String
  replyToMessageId : Option String
deriving DecidableEq, Repr

/-- `EmailDraft.is_sent`: the `draft_status` field equals `"sent"`. -/
def EmailDraft.isSent (d : EmailDraft) : Bool :=
  d.draftStatus == some "sent"

/-- Status of a followup task (`FollowupStatus`; the services use both
`scheduled` and the legacy `pending` as live states). -/
inductive FollowupStatus where
  | scheduled
  | pending
  | done
  | failed
  | cancelled
deriving DecidableEq, BEq, Repr

/-- A followup-task document, with the wire fields of the spec.  The engine's
`update_status` only ever writes `status`, `processed_at` and
`error_message`; the remaining audit fields stay whatever they were. -/
structure FollowupTask where
  docId : String
  draftId : String
  followupNumber : Nat
  daysAfterInitial : Nat
  scheduledFor : Timestamp
  status : FollowupStatus
  createdAt : Timestamp
  processedAt : Option Timestamp
  errorMessage : Option String
  cancellationReason : Option String
  cancelledAt : Option Timestamp
  draftIdCreated : Option String
deriving DecidableEq, Repr

/-- The document store: the `drafts` and `followups` collections, plus a
counter used to assign fresh document ids deterministically. -/
structure Store where
  drafts : List EmailDraft
  followups : List FollowupTask
  nextId : Nat
deriving DecidableEq, Repr

/-- `DraftRepository.get_by_id` (returning `none` instead of raising
`DraftNotFoundError`). -/
def findDraft (s : Store) (draftId : String) : Option EmailDraft :=
  s.drafts.find? (fun d => d.docId == draftId)

/-- `FollowupRepository.has_existing_followups`: a `limit(1)` query on
`draft_id`. -/
def hasExistingFollowups (s : Store) (draftId : String) : Bool :=
  s.followups.any (fun t => t.draftId == draftId)

/-- `DraftRepository.update_followup_ids`: sets `followup_ids` and
`followups_scheduled = true` on the draft document. -/
def updateFollowupIds (s : Store) (draftId : String) (ids : List String) : Store :=
  { s with drafts := s.drafts.map (fun d =>
      if d.docId == draftId then
        { d with followupIds := ids, followupsScheduled := true }
      else d) }

/-- `FollowupRepository.update_status`: writes `status`, `processed_at` and —
when a message is given — `error_message`; every other field of the document
is left untouched. -/
def updateStatus (s : Store) (followupId : String) (st : FollowupStatus)
    (errMsg : Option String) (nowTs : Timestamp) : Store :=
  { s with followups := s.followups.map (fun t =>
      if t.docId == followupId then
        { t with
          status := st
          processedAt := some nowTs
          errorMessage := match errMsg with
            | some m => some m
            | none => t.errorMessage }
      else t) }

/-! ## Scheduler (`services/scheduler.py`) -/

/-- `FOLLOWUP_SCHEDULE` / `FollowupScheduleSettings.schedule_days`. -/
def scheduleDays : List Nat := [3, 7, 10, 180]

/-- `FollowupScheduleSettings.days_to_followup_number` with the `.get(d, 0)`
default. -/
def daysToFollowupNumber (d : Nat) : Nat :=
  if d == 3 then 1
  else if d == 7 then 2
  else if d == 10 then 3
  else if d == 180 then 4
  else 0

/-- A fresh task as built by `SchedulerService._calculate_followup_schedule`
for one schedule offset (`doc_id` and `draft_id` are filled in later). -/
def mkScheduledTask (daysAfter : Nat) (sched nowTs : Timestamp) : FollowupTask :=
  { docId := ""
    draftId := ""
    followupNumber := daysToFollowupNumber daysAfter
    daysAfterInitial := daysAfter
    scheduledFor := sched
    status := .scheduled
    createdAt := nowTs
    processedAt := none
    errorMessage := none
    cancellationReason := none
    cancelledAt := none
    draftIdCreated := none }

/-- The loop of `_calculate_followup_schedule` over a list of offsets; `none`
propagates fuel exhaustion of `addBusinessDays` (never hit in practice). -/
def calcScheduleGo (sentAt nowTs : Timestamp) : List Nat → Option (List FollowupTask)
  | [] => some []
  | d :: rest =>
    match addBusinessDays sentAt (d : Int) with
    | none => none
    | some sched =>
      match calcScheduleGo sentAt nowTs rest with
      | none => none
      | some tasks => some (mkScheduledTask d sched nowTs :: tasks)

/-- `SchedulerService._calculate_followup_schedule`. -/
def calcFollowupSchedule (sentAt nowTs : Timestamp) : Option (List FollowupTask) :=
  calcScheduleGo sentAt nowTs scheduleDays

/-- A fresh Firestore document id, assigned by `create_batch` from the
store's id counter. -/
def freshId (n : Nat) : String := "fw" ++ toString n

/-- `FollowupRepository.create_batch`: assign fresh ids and append the tasks
to the collection in one batch. -/
def createBatch (s : Store) (tasks : List FollowupTask) : List String × Store :=
  let ids := (List.range tasks.length).map (fun i => freshId (s.nextId + i))
  let newTasks := tasks.zipWith (fun t i => { t with docId := i }) ids
  (ids, { s with followups := s.followups ++ newTasks, nextId := s.nextId + tasks.length })

/-- The typed errors raised by `schedule_for_draft`
(`DraftNotFoundError`, `DraftNotSentError`, `MissingSentAtError`). -/
inductive ScheduleError where
  | draftNotFound
  | draftNotSent
  | missingSentAt
deriving DecidableEq, Repr

/-- `ScheduleResult` (`infrastructure/firestore/models.py`). -/
structure ScheduleResult where
  draftId : String
  scheduledCount : Nat
  followupIds : List String
  skippedReason : Option String
deriving DecidableEq, Repr

/-- `SchedulerService.schedule_for_draft`.  Outer `Option` models fuel
exhaustion of the business-day search (never hit in practice); `Except`
models the raised validation errors.  Steps, in source order: fetch the
draft, validate `is_sent` and `sent_at`, skip when followups already exist,
otherwise compute the four tasks, batch-create them and update the draft. -/
def scheduleForDraft (s : Store) (draftId : String) (nowTs : Timestamp) :
    Option (Except ScheduleError (ScheduleResult × Store)) :=
  match findDraft s draftId with
  | none => some (.error .draftNotFound)
  | some draft =>
    if !draft.isSent then some (.error .draftNotSent)
    else match draft.sentAt with
    | none => some (.error .missingSentAt)
    | some sentAt =>
      if hasExistingFollowups s draftId then
        some (.ok ({ draftId := draftId, scheduledCount := 0, followupIds := [],
                     skippedReason := some "Followups already scheduled" }, s))
      else
        match calcFollowupSchedule sentAt nowTs with
        | none => none
        | some tasks =>
          let tasksWithDraftId := tasks.map (fun t => { t with draftId := draftId })
          let (ids, s1) := createBatch s tasksWithDraftId
          let s2 := updateFollowupIds s1 draftId ids
          some (.ok ({ draftId := draftId, scheduledCount := ids.length,
                       followupIds := ids, skippedReason := none }, s2))

/-- `DraftRepository.get_sent_drafts`: the drafts eligible for the bulk
scheduling path — `status == "sent"`, not `no_followup`, not themselves
followups (`is_followup` or `followup_number > 0`), and without
`followup_ids`. -/
def getSentDrafts (s : Store) : List EmailDraft :=
  s.drafts.filter (fun d =>
    d.status == "sent"
      && !d.noFollowup
      && !(d.isFollowup || decide (0 < d.followupNumber))
      && d.followupIds.isEmpty)

/-! ## Cancellation (`services/cancellation.py`) -/

/-- `FollowupRepository.get_pending_for_draft`: the draft's tasks with status
`scheduled`, then those with the legacy status `pending` (two successive
queries). -/
def getPendingForDraft (s : Store) (draftId : String) : List FollowupTask :=
  (s.followups.filter (fun t => t.draftId == draftId && t.status == .scheduled))
    ++ (s.followups.filter (fun t => t.draftId == draftId && t.status == .pending))

/-- `FollowupRepository.cancel_pending_for_draft`: update every
pending/scheduled task of the draft to `cancelled` (via `update_status`,
which writes no cancellation reason) and count them. -/
def cancelPendingForDraft (s : Store) (draftId : String) (nowTs : Timestamp) :
    Nat × Store :=
  (getPendingForDraft s draftId).foldl
    (fun acc t => (acc.1 + 1, updateStatus acc.2 t.docId .cancelled none nowTs))
    (0, s)

/-- `CancellationResult` (`services/cancellation.py`). -/
structure CancellationResult where
  draftId : String
  cancelledCount : Nat
  success : Bool
  message : String
deriving DecidableEq, Repr

/-- `CancellationService.cancel_for_draft`: check the draft exists, cancel
its pending followups, and report the count. -/
def cancelForDraft (s : Store) (draftId : String) (nowTs : Timestamp) :
    Except ScheduleError (CancellationResult × Store) :=
  if (findDraft s draftId).isSome then
    let r := cancelPendingForDraft s draftId nowTs
    let message :=
      if r.1 == 0 then "No pending followups found for draft " ++ draftId
      else "Cancelled " ++ toString r.1 ++ " followup(s) for draft " ++ draftId
    .ok ({ draftId := draftId, cancelledCount := r.1, success := true,
           message := message }, r.2)
  else .error .draftNotFound

/-! ## Processor (`services/processor.py`) -/

/-- A CRM lead as parsed by `OdooLead.from_api_response` (missing fields come
back as empty strings). -/
structure OdooLead where
  odooId : Nat
  firstName : String
  lastName : String
  email : String
  website : String
  partnerName : String
  function : String
  description : String
  xExternalId : String
deriving DecidableEq, Repr

/-- One `{subject, body}` item of the e-mail history sent to the composer.
These are exactly the keys the processor puts into each history dict. -/
structure HistoryEntry where
  subject : String
  body : String
deriving DecidableEq, Repr

/-- Python's `"@" in s` membership test on a string, over its character
data. -/
def containsAtSign (s : String) : Bool :=
  s.data.any (fun ch => ch == '@')

/-- Python's `a or b` for an optional string: `None` and `""` are falsy. -/
def pyOrString (a : Option String) (b : String) : String :=
  match a with
  | some v => if v == "" then b else v
  | none => b

/-- Modelled from the spec: `DraftRepository.get_by_external_id` is called by
`ProcessorService._get_email_history` (and by the debug route) but no such
method exists in `repositories.py`.  Per spec §6.2 the store indexes drafts
by `x_external_id`; the query is modelled as returning the drafts whose
`x_external_id` equals the argument, in store order. -/
def getByExternalId (s : Store) (x : String) : List EmailDraft :=
  s.drafts.filter (fun d => d.xExternalId == some x)

/-- The sort key of `email_history.sort(key=lambda x: x.get("followup_number", 0))`:
the history dicts built above contain only `subject` and `body`, so the
lookup always falls back to the default `0`. -/
def historySortKey (_ : HistoryEntry) : Nat := 0

/-- Stable insertion of an entry into a key-sorted list (an element is placed
before the first element with a strictly greater key), modelling Python's
stable `list.sort`. -/
def insertByKey (e : HistoryEntry) : List HistoryEntry → List HistoryEntry
  | [] => [e]
  | f :: rest =>
    if historySortKey e < historySortKey f then e :: f :: rest
    else f :: insertByKey e rest

/-- Stable sort of the history by `historySortKey`. -/
def sortHistory (l : List HistoryEntry) : List HistoryEntry :=
  l.foldl (fun acc e => insertByKey e acc) []

/-- `ProcessorService._get_email_history`: collect `{subject, body}` from the
drafts of this `x_external_id` that are `sent` and have a strictly smaller
`followup_number` (keeping only entries with a non-empty subject or body),
then sort by the (always-defaulted) `followup_number` key. -/
def getEmailHistory (s : Store) (x : String) (currentFollowupNumber : Nat) :
    List HistoryEntry :=
  let entries := (getByExternalId s x).foldl
    (fun acc d =>
      if d.draftStatus != some "sent" then acc
      else if currentFollowupNumber ≤ d.followupNumber then acc
      else
        let subject := pyOrString d.originalSubject (d.subject.getD "")
        let body := d.body.getD ""
        if subject != "" || body != "" then acc ++ [⟨subject, body⟩] else acc)
    []
  sortHistory entries

/-- The composer request as constructed at the call site in
`ProcessorService._build_email_request`.  (The `FollowupEmailRequest`
dataclass in `mail_writer_client.py` declares a stale, different field set;
the field set here is the one the processor passes, which matches the
composer payload of spec §6.4.) -/
structure EmailRequest where
  draftId : String
  firstName : String
  lastName : String
  email : String
  website : String
  partnerName : String
  xExternalId : String
  followupNumber : Nat
  function : String
  description : String
  versionGroupId : String
  odooId : Nat
  replyToThreadId : String
  replyToMessageId : String
  originalSubject : String
  emailHistory : List HistoryEntry
deriving DecidableEq, Repr

/-- An uncaught Python exception aborting `process_due_followups`:
`typeError` models `ExternalServiceError(msg)` called with one positional
argument (its constructor requires `service_name` and `message`);
`nameError` models `raise OdooError(...)`, a name `processor.py` never
imports. -/
inductive PyCrash where
  | typeError
  | nameError
deriving DecidableEq, Repr

/-- Outcome of `_build_email_request`: a request, an exception the caller
catches (`DraftNotFoundError` or a properly constructed
`ExternalServiceError`), or an uncaught crash. -/
inductive BuildOutcome where
  | ok (req : EmailRequest)
  | caught (msg : String)
  | crash (c : PyCrash)
deriving DecidableEq, Repr

/-- The composer's JSON response (`FollowupEmailResponse`). -/
structure MailWriterResponse where
  success : Bool
  draftId : Option String
  message : Option String
  error : Option String
deriving DecidableEq, Repr

/-- The external world as seen by one processor run: the CRM lookup by
`x_external_id`, and the composer call (`Except.error` models a raised
`MailWriterError`, e.g. timeout or HTTP error). -/
structure ProcessorEnv where
  odooLookup : String → Option OdooLead
  mailWriter : EmailRequest → Except String MailWriterResponse

/-- `MailWriterClient.generate_followup`: a transport error raises
`MailWriterError`; an HTTP-ok response with `success = false` also raises
`MailWriterError`. -/
def generateFollowup (env : ProcessorEnv) (req : EmailRequest) :
    Except String MailWriterResponse :=
  match env.mailWriter req with
  | .error e => .error e
  | .ok resp =>
    if !resp.success then
      .error ("Mail-writer returned error: " ++ (resp.error.getD "None"))
    else .ok resp

/-- `ProcessorService._build_email_request`, faithful to the source's
exception behaviour: a missing draft raises the caught
`DraftNotFoundError`; a missing lead, an invalid e-mail or a missing
`first_name` raise `ExternalServiceError` with a single argument — a
`TypeError`; a missing `last_name`, `partner_name` or `website` raise the
unimported name `OdooError` — a `NameError`. -/
def buildEmailRequest (s : Store) (env : ProcessorEnv) (task : FollowupTask) :
    BuildOutcome :=
  match findDraft s task.draftId with
  | none => .caught ("Draft not found: " ++ task.draftId)
  | some draft =>
    let xExternalId := pyOrString draft.xExternalId task.draftId
    let emailHistory := getEmailHistory s xExternalId task.followupNumber
    match env.odooLookup xExternalId with
    | none => .crash .typeError
    | some lead =>
      if lead.email == "" || !containsAtSign lead.email then .crash .typeError
      else if lead.firstName == "" then .crash .typeError
      else if lead.lastName == "" then .crash .nameError
      else if lead.partnerName == "" then .crash .nameError
      else if lead.website == "" then .crash .nameError
      else
        .ok { draftId := task.draftId
              firstName := lead.firstName
              lastName := lead.lastName
              email := lead.email
              website := lead.website
              partnerName := lead.partnerName
              xExternalId := lead.xExternalId
              followupNumber := task.followupNumber
              function := lead.function
              description := lead.description
              versionGroupId := draft.versionGroupId.getD ""
              odooId := lead.odooId
              replyToThreadId := draft.replyToThreadId.getD ""
              replyToMessageId := draft.replyToMessageId.getD ""
              originalSubject := draft.originalSubject.getD ""
              emailHistory := emailHistory }

/-- `ProcessingResult` (`infrastructure/firestore/models.py`). -/
structure ProcessingResult where
  followupId : String
  draftId : String
  followupNumber : Nat
  success : Bool
  errorMessage : Option String
deriving DecidableEq, Repr

/-- `ProcessorService.process_followup`.  Only `DraftNotFoundError` and
`ExternalServiceError` are caught and turned into a `failed` transition; a
`PyCrash` escapes (carrying the store as it stood, since no write precedes
the raise).  On composer success the task is set to `done` and the response
— including its `draft_id` — is discarded. -/
def processFollowup (s : Store) (env : ProcessorEnv) (task : FollowupTask)
    (nowTs : Timestamp) : Except (PyCrash × Store) (ProcessingResult × Store) :=
  match buildEmailRequest s env task with
  | .crash c => .error (c, s)
  | .caught msg =>
    let s1 := updateStatus s task.docId .failed (some msg) nowTs
    .ok ({ followupId := task.docId, draftId := task.draftId,
           followupNumber := task.followupNumber, success := false,
           errorMessage := some msg }, s1)
  | .ok req =>
    match generateFollowup env req with
    | .error msg =>
      let s1 := updateStatus s task.docId .failed (some msg) nowTs
      .ok ({ followupId := task.docId, draftId := task.draftId,
             followupNumber := task.followupNumber, success := false,
             errorMessage := some msg }, s1)
    | .ok _resp =>
      let s1 := updateStatus s task.docId .done none nowTs
      .ok ({ followupId := task.docId, draftId := task.draftId,
             followupNumber := task.followupNumber, success := true,
             errorMessage := none }, s1)

/-- Timestamp comparison (`scheduled_for <= cutoff`). -/
def tsLe (a b : Timestamp) : Bool :=
  decide (a.date.year < b.date.year
    ∨ (a.date.year = b.date.year
      ∧ (a.date.month < b.date.month
        ∨ (a.date.month = b.date.month
          ∧ (a.date.day < b.date.day
            ∨ (a.date.day = b.date.day ∧ a.secondOfDay ≤ b.secondOfDay))))))

/-- `FollowupRepository.get_due_followups` for status `SCHEDULED`: the tasks
with status `scheduled` due before the cutoff, then those with the legacy
status `pending` (two successive queries). -/
def getDueFollowups (s : Store) (cutoff : Timestamp) : List FollowupTask :=
  (s.followups.filter (fun t => t.status == .scheduled && tsLe t.scheduledFor cutoff))
    ++ (s.followups.filter (fun t => t.status == .pending && tsLe t.scheduledFor cutoff))

/-- The sequential per-task loop of `process_due_followups`; an uncaught
exception aborts the remainder of the batch. -/
def processLoop (env : ProcessorEnv) (nowTs : Timestamp) :
    List FollowupTask → Store → List ProcessingResult →
    Except (PyCrash × Store) (List ProcessingResult × Store)
  | [], s, acc => .ok (acc, s)
  | t :: rest, s, acc =>
    match processFollowup s env t nowTs with
    | .error e => .error e
    | .ok (r, s1) => processLoop env nowTs rest s1 (acc ++ [r])

/-- `ProcessorService.process_due_followups`: fetch the due tasks (cutoff =
`before` or now) and process them one by one. -/
def processDueFollowups (s : Store) (env : ProcessorEnv)
    (before : Option Timestamp) (nowTs : Timestamp) :
    Except (PyCrash × Store) (List ProcessingResult × Store) :=
  let cutoff := before.getD nowTs
  processLoop env nowTs (getDueFollowups s cutoff) s []

/-! ## Circuit breaker (`infrastructure/circuit_breaker.py`) -/

/-- `CircuitState` (`closed` / `open` / `half_open`). -/
inductive CircuitState where
  | closed
  | opened
  | halfOpen
deriving DecidableEq, Repr

/-- `CircuitBreakerConfig`. -/
structure CircuitBreakerConfig where
  failureThreshold : Nat
  successThreshold : Nat
  timeoutSeconds : Nat
deriving DecidableEq, Repr

/-- The mutable state of a `CircuitBreaker`. -/
structure BreakerState where
  state : CircuitState
  failureCount : Nat
  successCount : Nat
  lastFailureTime : Option Nat
deriving DecidableEq, Repr

/-- `CircuitBreaker._record_success`. -/
def recordSuccess (cfg : CircuitBreakerConfig) (cb : BreakerState) : BreakerState :=
  match cb.state with
  | .halfOpen =>
    let sc := cb.successCount + 1
    if cfg.successThreshold ≤ sc then
      { cb with state := .closed, successCount := sc, failureCount := 0 }
    else { cb with successCount := sc }
  | .closed => { cb with failureCount := 0 }
  | .opened => cb

/-- `CircuitBreaker._record_failure`: an excluded exception is not counted;
otherwise the failure counter and timestamp advance and the breaker opens
from `half_open` (always) or from `closed` (once the threshold is
reached). -/
def recordFailure (cfg : CircuitBreakerConfig) (cb : BreakerState)
    (excluded : Bool) (time : Nat) : BreakerState :=
  if excluded then cb
  else
    let cb1 := { cb with failureCount := cb.failureCount + 1,
                         lastFailureTime := some time }
    match cb1.state with
    | .halfOpen => { cb1 with state := .opened }
    | .closed =>
      if cfg.failureThreshold ≤ cb1.failureCount then { cb1 with state := .opened }
      else cb1
    | .opened => cb1

/-- One recorded call through `CircuitBreaker.call`: a success, or a failure
with its exclusion flag and wall-clock time. -/
inductive CallEvent where
  | success
  | failure (excluded : Bool) (time : Nat)
deriving DecidableEq, Repr

/-- Record one call outcome. -/
def breakerStep (cfg : CircuitBreakerConfig) (cb : BreakerState) :
    CallEvent → BreakerState
  | .success => recordSuccess cfg cb
  | .failure ex t => recordFailure cfg cb ex t

/-- Record a sequence of call outcomes. -/
def runEvents (cfg : CircuitBreakerConfig) (cb : BreakerState)
    (events : List CallEvent) : BreakerState :=
  events.foldl (breakerStep cfg) cb

/-- The number of counted (non-excluded) failures recorded since the last
success, starting from a count of `c`. -/
def failuresSinceSuccessFrom (c : Nat) (events : List CallEvent) : Nat :=
  events.foldl
    (fun acc e => match e with
      | .success => 0
      | .failure ex _ => if ex then acc else acc + 1)
    c

/-- The number of counted failures at the end of `events` with no
intervening success. -/
def failuresSinceSuccess (events : List CallEvent) : Nat :=
  failuresSinceSuccessFrom 0 events

/-! ## Concrete fixtures used by witnesses and counterexamples -/

/-- A send time: Monday 2024-01-08 at 10:00:00 UTC. -/
def sentMonday : Timestamp := ⟨⟨2024, 1, 8⟩, 36000⟩

/-- A sent, reply-free, initial draft. -/
def demoDraft : EmailDraft :=
  { docId := "d1", status := "sent", draftStatus := some "sent",
    sentAt := some sentMonday, noFollowup := false, isFollowup := false,
    followupNumber := 0, hasReply := false, followupIds := [],
    followupsScheduled := false, xExternalId := some "x1",
    versionGroupId := some "vg1", subject := some "hello",
    originalSubject := none, body := some "first body",
    replyToThreadId := none, replyToMessageId := none }

/-- The clock at scheduling time. -/
def demoNow : Timestamp := ⟨⟨2024, 1, 8⟩, 37000⟩

/-- A store holding just the sent draft, before scheduling. -/
def demoStore : Store := { drafts := [demoDraft], followups := [], nextId := 0 }

/-- One scheduled task as produced for `demoDraft`. -/
def demoTask (id : String) (fn days : Nat) (sched : Date) : FollowupTask :=
  { docId := id, draftId := "d1", followupNumber := fn, daysAfterInitial := days,
    scheduledFor := ⟨sched, oneAmSecond⟩, status := .scheduled, createdAt := demoNow,
    processedAt := none, errorMessage := none, cancellationReason := none,
    cancelledAt := none, draftIdCreated := none }

/-- The long-term (J+180) task produced for `demoDraft`: 180 business days
after Monday 2024-01-08 is Tuesday 2024-09-24. -/
def demoTask180 : FollowupTask := demoTask "fw3" 4 180 ⟨2024, 9, 24⟩

/-- The four tasks produced for `demoDraft`. -/
def demoScheduledTasks : List FollowupTask :=
  [demoTask "fw0" 1 3 ⟨2024, 1, 11⟩, demoTask "fw1" 2 7 ⟨2024, 1, 17⟩,
   demoTask "fw2" 3 10 ⟨2024, 1, 22⟩, demoTask180]

/-- The store after scheduling `demoDraft`. -/
def demoStoreAfter : Store :=
  { drafts := [{ demoDraft with
                 followupIds := ["fw0", "fw1", "fw2", "fw3"]
                 followupsScheduled := true }],
    followups := demoScheduledTasks, nextId := 4 }

/-- The result of the first scheduling call on `demoStore`. -/
def demoScheduleResult : ScheduleResult :=
  { draftId := "d1", scheduledCount := 4,
    followupIds := ["fw0", "fw1", "fw2", "fw3"], skippedReason := none }

/-- A store that already holds a followup task for the sent draft `"d1"`. -/
def alreadyScheduledStore : Store :=
  { drafts := [demoDraft], followups := [demoTask180], nextId := 4 }

/-- The skip result returned when followups already exist. -/
def skipResult : ScheduleResult :=
  { draftId := "d1", scheduledCount := 0, followupIds := [],
    skippedReason := some "Followups already scheduled" }

/-- A sent draft marked `no_followup = true` (the opt-out flag). -/
def optOutDraft : EmailDraft :=
  { demoDraft with docId := "d2", noFollowup := true }

/-- A store holding only the opted-out draft and no tasks. -/
def optOutStore : Store := { drafts := [optOutDraft], followups := [], nextId := 0 }

/-- Extracts the `scheduled_count` from a scheduling outcome. -/
def scheduledCountOf (o : Option (Except ScheduleError (ScheduleResult × Store))) :
    Option Nat :=
  match o with
  | some (Except.ok (r, _)) => some r.scheduledCount
  | _ => none

/-- Extracts the size of the task collection from a scheduling outcome. -/
def taskCountAfter (o : Option (Except ScheduleError (ScheduleResult × Store))) :
    Option Nat :=
  match o with
  | some (Except.ok (_, s)) => some s.followups.length
  | _ => none

/-- Cancellation fixture: the draft `"d1"` with a single `scheduled` task
whose `business_days_after` is 180 (the long-term task). -/
def longTermTask : FollowupTask :=
  { docId := "t180", draftId := "d1", followupNumber := 4, daysAfterInitial := 180,
    scheduledFor := ⟨⟨2024, 9, 24⟩, oneAmSecond⟩, status := .scheduled,
    createdAt := demoNow, processedAt := none, errorMessage := none,
    cancellationReason := none, cancelledAt := none, draftIdCreated := none }

/-- The store before the cancellation call. -/
def cancelStore : Store :=
  { drafts := [demoDraft], followups := [longTermTask], nextId := 4 }

/-- The clock at cancellation time. -/
def cancelNow : Timestamp := ⟨⟨2024, 2, 1⟩, 43200⟩

/-- The long-term task as left by `cancel_for_draft`: cancelled, with
`processed_at` set and no cancellation reason recorded. -/
def longTermTaskAfter : FollowupTask :=
  { longTermTask with status := .cancelled, processedAt := some cancelNow }

/-- The store after the cancellation call. -/
def cancelStoreAfter : Store :=
  { drafts := [demoDraft], followups := [longTermTaskAfter], nextId := 4 }

/-- A CRM lead with every required field present and well-formed. -/
def goodLead : OdooLead :=
  { odooId := 7, firstName := "Jane", lastName := "Doe",
    email := "jane@example.com", website := "https://example.com",
    partnerName := "Acme", function := "CTO", description := "vip",
    xExternalId := "x1" }

/-- Processor fixture: the draft `"d1"`, but with `has_reply = true`. -/
def repliedDraft : EmailDraft := { demoDraft with hasReply := true }

/-- A due task for draft `"d1"`. -/
def dueTask : FollowupTask :=
  { docId := "t1", draftId := "d1", followupNumber := 1, daysAfterInitial := 3,
    scheduledFor := ⟨⟨2024, 1, 11⟩, oneAmSecond⟩, status := .scheduled,
    createdAt := demoNow, processedAt := none, errorMessage := none,
    cancellationReason := none, cancelledAt := none, draftIdCreated := none }

/-- The clock at processing time. -/
def processNow : Timestamp := ⟨⟨2024, 1, 12⟩, 7200⟩

/-- Store for the `has_reply` processor run. -/
def repliedStore : Store :=
  { drafts := [repliedDraft], followups := [dueTask], nextId := 4 }

/-- The composer response for the happy-path runs. -/
def happyResponse : MailWriterResponse :=
  { success := true, draftId := some "gen-1", message := none, error := none }

/-- Environment whose CRM knows `"x1"` and whose composer answers
`happyResponse`. -/
def happyEnv : ProcessorEnv :=
  { odooLookup := fun x => if x == "x1" then some goodLead else none,
    mailWriter := fun _ => Except.ok happyResponse }

/-- The due task after a successful processor run: `done`, `processed_at`
set, and no `draft_id_created` recorded. -/
def dueTaskDone : FollowupTask :=
  { dueTask with status := .done, processedAt := some processNow }

/-- `repliedStore` after the processor run. -/
def repliedStoreAfter : Store :=
  { drafts := [repliedDraft], followups := [dueTaskDone], nextId := 4 }

/-- Store for the reply-free happy-path run (claim C8). -/
def happyStore : Store :=
  { drafts := [demoDraft], followups := [dueTask], nextId := 4 }

/-- `happyStore` after the processor run. -/
def happyStoreAfter : Store :=
  { drafts := [demoDraft], followups := [dueTaskDone], nextId := 4 }

/-- A CRM lead whose e-mail does not contain an `@`. -/
def badEmailLead : OdooLead :=
  { goodLead with email := "not-an-email", xExternalId := "x2" }

/-- A CRM lead with an empty `last_name` (`contact_name` without a space). -/
def noLastNameLead : OdooLead :=
  { goodLead with lastName := "", xExternalId := "x2" }

/-- A second draft, whose CRM record is broken (`x_external_id = "x2"`). -/
def brokenCrmDraft : EmailDraft :=
  { demoDraft with docId := "d2", xExternalId := some "x2" }

/-- A due task referencing the broken-CRM draft. -/
def brokenCrmTask : FollowupTask :=
  { dueTask with docId := "t2", draftId := "d2" }

/-- Store with two due tasks; the first one has the broken CRM record. -/
def twoTaskStore : Store :=
  { drafts := [brokenCrmDraft, demoDraft], followups := [brokenCrmTask, dueTask],
    nextId := 4 }

/-- Environment whose CRM returns the invalid-e-mail lead for `"x2"`. -/
def badEmailEnv : ProcessorEnv :=
  { odooLookup := fun x =>
      if x == "x1" then some goodLead
      else if x == "x2" then some badEmailLead
      else none,
    mailWriter := fun _ => Except.ok happyResponse }

/-- Environment whose CRM returns the missing-last-name lead for `"x2"`. -/
def noLastNameEnv : ProcessorEnv :=
  { odooLookup := fun x => if x == "x2" then some noLastNameLead else none,
    mailWriter := fun _ => Except.ok happyResponse }

/-- History fixture: a sent draft with `followup_number = 1`, stored before
its initial e-mail. -/
def historyDraftLater : EmailDraft :=
  { demoDraft with
    docId := "a"
    followupNumber := 1
    subject := some "s1"
    body := some "b1" }

/-- History fixture: the sent initial draft (`followup_number = 0`). -/
def historyDraftFirst : EmailDraft :=
  { demoDraft with
    docId := "b"
    followupNumber := 0
    subject := some "s0"
    body := some "b0" }

/-- Store whose draft collection returns the `followup_number = 1` draft
before the `followup_number = 0` draft. -/
def historyStore : Store :=
  { drafts := [historyDraftLater, historyDraftFirst], followups := [], nextId := 0 }

/-- The composer circuit-breaker configuration
(`CircuitBreakerConfig(failure_threshold=3, timeout_seconds=60.0)`,
`success_threshold` defaulting to 2). -/
def composerBreakerConfig : CircuitBreakerConfig :=
  { failureThreshold := 3, successThreshold := 2, timeoutSeconds := 60 }

/-- A fresh, closed circuit breaker. -/
def freshBreaker : BreakerState :=
  { state := .closed, failureCount := 0, successCount := 0, lastFailureTime := none }

/-- Three non-consecutive counted failures followed by three consecutive
ones. -/
def breakerDemoEvents : List CallEvent :=
  [.failure false 1, .success, .failure false 2, .failure false 3, .failure false 4]

/-! ## Sanity checks of the calendar embedding -/

example : pythonWeekday ⟨2024, 1, 8⟩ = 0 := rfl
example : pythonWeekday ⟨2024, 1, 6⟩ = 5 := rfl
example : pythonWeekday ⟨2024, 1, 7⟩ = 6 := rfl
example : calculateEaster 2024 = ⟨2024, 3, 31⟩ := rfl
example : calculateEaster 2008 = ⟨2008, 3, 23⟩ := rfl
example : isBusinessDay ⟨2024, 1, 2⟩ = true := rfl
example : isBusinessDay ⟨2024, 1, 6⟩ = false := rfl
example : isBusinessDay ⟨2024, 12, 25⟩ = false := rfl
example : addBusinessDays ⟨⟨2024, 1, 8⟩, 36000⟩ 3 = some ⟨⟨2024, 1, 11⟩, 3600⟩ := rfl
example : addBusinessDays ⟨⟨2024, 12, 23⟩, 36000⟩ 3 = some ⟨⟨2024, 12, 27⟩, 3600⟩ := rfl

/-! ## Business-day lemmas -/

/-- Once at least one business day remains to be added, the date the loop
stops at was accepted by the `isBusinessDay` check. -/
theorem addBusinessDaysGo_some_business (dirPos : Bool) :
    ∀ (fuel : Nat) (cur : Date) (r : Nat) (d : Date),
      addBusinessDaysGo dirPos fuel cur (r + 1) = some d → isBusinessDay d = true := by
  intro fuel
  induction fuel with
  | zero => intro cur r d h; simp [addBusinessDaysGo] at h
  | succ fuel ih =>
    intro cur r d h
    rw [addBusinessDaysGo] at h
    by_cases hb : isBusinessDay (if dirPos then nextDay cur else prevDay cur) = true
    · rw [if_pos hb] at h
      cases r with
      | zero =>
        simp only [addBusinessDaysGo, Option.some.injEq] at h
        exact h ▸ hb
      | succ r1 => exact ih _ r1 d h
    · rw [if_neg hb] at h
      exact ih _ r d h

/-- Whenever `add_business_days` returns with a non-zero day count, the
result is on a business day at 01:00:00 UTC. -/
theorem addBusinessDays_spec (t : Timestamp) (n : Int) (h : 1 ≤ n.natAbs)
    (t' : Timestamp) (heq : addBusinessDays t n = some t') :
    isBusinessDay t'.date = true ∧ t'.secondOfDay = oneAmSecond := by
  unfold addBusinessDays at heq
  obtain ⟨m, hm⟩ : ∃ m, n.natAbs = m + 1 := ⟨n.natAbs - 1, by omega⟩
  rw [hm] at heq
  cases hgo : addBusinessDaysGo (decide (0 ≤ n)) (businessDaysFuel (m + 1)) t.date (m + 1) with
  | none => rw [hgo] at heq; simp at heq
  | some d =>
    rw [hgo] at heq
    simp only [Option.some.injEq] at heq
    have hb := addBusinessDaysGo_some_business _ _ _ _ _ hgo
    subst heq
    exact ⟨hb, rfl⟩

/-- The property of claim C3: a firing time on a weekday that is neither
Saturday nor Sunday nor a French public holiday, at exactly 01:00:00 UTC. -/
def firesOnBusinessDayAtOneAm (t : Timestamp) : Prop :=
  pythonWeekday t.date ≠ 5 ∧ pythonWeekday t.date ≠ 6 ∧
  containsDate t.date (getFrenchHolidays t.date.year) = false ∧
  t.secondOfDay = oneAmSecond

/-- Unpacking `isBusinessDay` into claim C3's predicate. -/
theorem fires_of_business (t : Timestamp) (h1 : isBusinessDay t.date = true)
    (h2 : t.secondOfDay = oneAmSecond) : firesOnBusinessDayAtOneAm t := by
  unfold isBusinessDay at h1
  by_cases hw : 5 ≤ pythonWeekday t.date
  · rw [if_pos hw] at h1; simp at h1
  · rw [if_neg hw] at h1
    push_neg at hw
    have hc : containsDate t.date (getFrenchHolidays t.date.year) = false := by
      cases hX : containsDate t.date (getFrenchHolidays t.date.year) with
      | false => rfl
      | true => rw [hX] at h1; exact absurd h1 (by decide)
    exact ⟨by omega, by omega, hc, h2⟩

/-- Every task produced by `_calculate_followup_schedule` for positive
offsets fires on a business day at 01:00 UTC. -/
theorem calcScheduleGo_fires (sentAt nowTs : Timestamp) :
    ∀ (ds : List Nat) (tasks : List FollowupTask),
      (∀ d ∈ ds, 1 ≤ d) → calcScheduleGo sentAt nowTs ds = some tasks →
      ∀ task ∈ tasks, firesOnBusinessDayAtOneAm task.scheduledFor := by
  intro ds
  induction ds with
  | nil =>
    intro tasks _ h task ht
    simp only [calcScheduleGo, Option.some.injEq] at h
    subst h; simp at ht
  | cons d rest ih =>
    intro tasks hds h task ht
    rw [calcScheduleGo] at h
    cases habd : addBusinessDays sentAt (d : Int) with
    | none => rw [habd] at h; simp at h
    | some sched =>
      rw [habd] at h
      cases hrest : calcScheduleGo sentAt nowTs rest with
      | none => rw [hrest] at h; simp at h
      | some ts =>
        rw [hrest] at h
        simp only [Option.some.injEq] at h
        subst h
        rcases List.mem_cons.mp ht with h1 | h2
        · have hd : 1 ≤ d := hds d (List.mem_cons_self _ _)
          have hna : 1 ≤ ((d : Int)).natAbs := by simpa using hd
          have hsp := addBusinessDays_spec sentAt d hna sched habd
          have := fires_of_business sched hsp.1 hsp.2
          rw [h1]
          exact this
        · exact ih ts (fun e he => hds e (List.mem_cons_of_mem _ he)) hrest task h2

/-- Tasks surviving `create_batch`'s id assignment keep their firing time. -/
theorem mem_assignIds (ts : List FollowupTask) :
    ∀ (ids : List String) (t' : FollowupTask),
      t' ∈ List.zipWith (fun t i => { t with docId := i }) ts ids →
      ∃ t ∈ ts, t'.scheduledFor = t.scheduledFor := by
  induction ts with
  | nil => intro ids t' h; simp at h
  | cons t rest ih =>
    intro ids t' h
    cases ids with
    | nil => simp at h
    | cons i is =>
      rw [List.zipWith_cons_cons] at h
      rcases List.mem_cons.mp h with h1 | h2
      · exact ⟨t, List.mem_cons_self _ _, by rw [h1]⟩
      · obtain ⟨u, hu, he⟩ := ih is t' h2
        exact ⟨u, List.mem_cons_of_mem _ hu, he⟩

/-- Claim C3: for every timestamp and offset in {3, 7, 10, 180}, the firing
time computed by `add_business_days` is on a business day (not Saturday, not
Sunday, not a French public holiday) at exactly 01:00:00 UTC; consequently
every task created by `schedule_for_draft` satisfies this predicate on its
`scheduled_for`. -/
theorem scheduler_fires_business_day_one_am :
    (∀ (t : Timestamp) (d : Int) (t' : Timestamp),
        d ∈ ([3, 7, 10, 180] : List Int) → addBusinessDays t d = some t' →
        firesOnBusinessDayAtOneAm t') ∧
    (∀ (s : Store) (draftId : String) (nowTs : Timestamp)
        (r : ScheduleResult) (s' : Store),
        scheduleForDraft s draftId nowTs = some (Except.ok (r, s')) →
        ∀ task ∈ s'.followups,
          task ∈ s.followups ∨ firesOnBusinessDayAtOneAm task.scheduledFor) := by
  constructor
  · intro t d t' hmem heq
    have h1 : 1 ≤ d.natAbs := by
      simp only [List.mem_cons, List.not_mem_nil, or_false] at hmem
      rcases hmem with rfl | rfl | rfl | rfl <;> decide
    have hsp := addBusinessDays_spec t d h1 t' heq
    exact fires_of_business t' hsp.1 hsp.2
  · intro s did nowTs r s' h task htask
    unfold scheduleForDraft at h
    split at h
    · simp at h
    · split at h
      · simp at h
      · split at h
        · simp at h
        · rename_i draft hfd sentAt hsa
          split at h
          · simp only [Option.some.injEq, Except.ok.injEq, Prod.mk.injEq] at h
            rw [← h.2] at htask
            exact Or.inl htask
          · split at h
            · simp at h
            · rename_i tasks hcalc
              simp only [Option.some.injEq, Except.ok.injEq, Prod.mk.injEq] at h
              rw [← h.2] at htask
              have htask2 : task ∈ s.followups ++
                  List.zipWith (fun t i => { t with docId := i })
                    (tasks.map (fun t => { t with draftId := did }))
                    ((List.range
                      (tasks.map (fun t => { t with draftId := did })).length).map
                      (fun i => freshId (s.nextId + i))) := htask
              rcases List.mem_append.mp htask2 with hl | hr
              · exact Or.inl hl
              · right
                obtain ⟨u, hu, hsch⟩ := mem_assignIds _ _ _ hr
                obtain ⟨v, hv, rfl⟩ := List.mem_map.mp hu
                rw [hsch]
                exact calcScheduleGo_fires sentAt nowTs scheduleDays tasks
                  (by decide) hcalc v hv

/-- Witness for claim C3 at concrete inputs: offset 3 from Monday 2024-01-08
lands on Thursday 2024-01-11 at 01:00 UTC, and the long-term task created by
scheduling `demoDraft` fires on a business day at 01:00 UTC. -/
theorem scheduler_fires_business_day_one_am_witness :
    firesOnBusinessDayAtOneAm ⟨⟨2024, 1, 11⟩, oneAmSecond⟩ ∧
    (demoTask180 ∈ demoStore.followups ∨
      firesOnBusinessDayAtOneAm demoTask180.scheduledFor) := by
  constructor
  · exact scheduler_fires_business_day_one_am.1 sentMonday 3 _ (by decide) rfl
  · exact scheduler_fires_business_day_one_am.2 demoStore "d1" demoNow
      demoScheduleResult demoStoreAfter rfl demoTask180
      (List.mem_cons_of_mem _ (List.mem_cons_of_mem _
        (List.mem_cons_of_mem _ (List.mem_cons_self _ _))))

/-! ## Scheduler idempotence (claim C4) -/

/-- When the draft is found, sent, stamped, and already has followups,
`schedule_for_draft` returns the skip result and leaves the store
untouched. -/
theorem scheduleForDraft_skip (s : Store) (did : String) (nowTs : Timestamp)
    (draft : EmailDraft) (hfd : findDraft s did = some draft)
    (hsent : draft.isSent = true) (sentAt : Timestamp)
    (hsa : draft.sentAt = some sentAt)
    (hex : hasExistingFollowups s did = true) :
    scheduleForDraft s did nowTs =
      some (Except.ok ({ draftId := did, scheduledCount := 0, followupIds := [], skippedReason := some "Followups already scheduled" }, s)) := by
  have hnots : (!draft.isSent) = false := by rw [hsent]; rfl
  simp only [scheduleForDraft, hfd, hnots, hsa, hex, Bool.false_eq_true,
    if_false, if_true]

/-- `find?` over the draft update: the updated draft is found under the same
id, with only `followup_ids` and `followups_scheduled` changed. -/
theorem findDraft_update (s : Store) (did : String) (ids : List String) :
    findDraft (updateFollowupIds s did ids) did =
      (findDraft s did).map
        (fun d => { d with followupIds := ids, followupsScheduled := true }) := by
  unfold findDraft updateFollowupIds
  rw [List.find?_map]
  have hpred : ((fun d : EmailDraft => d.docId == did) ∘
      (fun d : EmailDraft =>
        if d.docId == did then
          { d with followupIds := ids, followupsScheduled := true }
        else d)) = fun d : EmailDraft => d.docId == did := by
    funext d
    by_cases hd : (d.docId == did) = true
    · rw [Function.comp_apply, if_pos hd]
    · rw [Function.comp_apply, if_neg hd]
  rw [hpred]
  cases hfind : List.find? (fun d : EmailDraft => d.docId == did) s.drafts with
  | none => rfl
  | some d =>
    have hp := List.find?_some hfind
    simp only [Option.map]
    rw [if_pos hp]

/-- `create_batch` does not touch the draft collection. -/
theorem findDraft_createBatch (s : Store) (ts : List FollowupTask) (did : String) :
    findDraft (createBatch s ts).2 did = findDraft s did := rfl

/-- `update_followup_ids` does not touch the followup collection. -/
theorem hasExisting_updateFollowupIds (s : Store) (did did2 : String)
    (ids : List String) :
    hasExistingFollowups (updateFollowupIds s did2 ids) did =
      hasExistingFollowups s did := rfl

/-- `calcScheduleGo` produces one task per requested offset. -/
theorem calcScheduleGo_length (sentAt nowTs : Timestamp) :
    ∀ (ds : List Nat) (tasks : List FollowupTask),
      calcScheduleGo sentAt nowTs ds = some tasks → tasks.length = ds.length := by
  intro ds
  induction ds with
  | nil =>
    intro tasks h
    simp only [calcScheduleGo, Option.some.injEq] at h
    subst h; rfl
  | cons d rest ih =>
    intro tasks h
    rw [calcScheduleGo] at h
    cases habd : addBusinessDays sentAt (d : Int) with
    | none => rw [habd] at h; simp at h
    | some sched =>
      rw [habd] at h
      cases hrest : calcScheduleGo sentAt nowTs rest with
      | none => rw [hrest] at h; simp at h
      | some ts =>
        rw [hrest] at h
        simp only [Option.some.injEq] at h
        subst h
        simp [ih ts hrest]

/-- After a non-empty batch of tasks for a draft is created, the draft has
existing followups. -/
theorem hasExisting_createBatch (s : Store) (did : String)
    (ts : List FollowupTask) (hne : ts ≠ [])
    (hall : ∀ t ∈ ts, t.draftId = did) :
    hasExistingFollowups (createBatch s ts).2 did = true := by
  cases ts with
  | nil => exact absurd rfl hne
  | cons t ts1 =>
    show (s.followups ++
      List.zipWith (fun (t : FollowupTask) (i : String) => { t with docId := i })
        (t :: ts1)
        ((List.range (t :: ts1).length).map
          (fun i => freshId (s.nextId + i)))).any
        (fun u => u.draftId == did) = true
    rw [List.length_cons, List.range_succ_eq_map, List.map_cons,
      List.zipWith_cons_cons, List.any_append, List.any_cons]
    have ht : t.draftId = did := hall t (List.mem_cons_self _ _)
    simp [ht]

/-- Claim C4: `schedule_for_draft` is idempotent — after any successful call,
a second call on the same draft returns `scheduled_count = 0` with the skip
reason, creates no tasks, and leaves the store unchanged. -/
theorem schedule_for_draft_idempotent (s : Store) (did : String)
    (now1 now2 : Timestamp) (r : ScheduleResult) (s' : Store)
    (h : scheduleForDraft s did now1 = some (Except.ok (r, s'))) :
    scheduleForDraft s' did now2 =
      some (Except.ok ({ draftId := did, scheduledCount := 0, followupIds := [], skippedReason := some "Followups already scheduled" }, s')) := by
  unfold scheduleForDraft at h
  split at h
  · simp at h
  · rename_i draft hfd
    split at h
    · simp at h
    · rename_i hns
      have hsent : draft.isSent = true := by
        cases hIs : draft.isSent with
        | false => exact absurd (by rw [hIs]; rfl) hns
        | true => rfl
      split at h
      · simp at h
      · rename_i sentAt hsa
        split at h
        · rename_i hex
          simp only [Option.some.injEq, Except.ok.injEq, Prod.mk.injEq] at h
          rw [← h.2]
          exact scheduleForDraft_skip s did now2 draft hfd hsent sentAt hsa hex
        · rename_i hexn
          split at h
          · simp at h
          · rename_i tasks hcalc
            simp only [Option.some.injEq, Except.ok.injEq, Prod.mk.injEq] at h
            have hlen := calcScheduleGo_length sentAt now1 scheduleDays tasks hcalc
            have hne : tasks.map
                (fun t => { t with draftId := did }) ≠ [] := by
              cases tasks with
              | nil => simp [scheduleDays] at hlen
              | cons v vs => simp
            have hall : ∀ u ∈ tasks.map (fun t => { t with draftId := did }),
                u.draftId = did := by
              intro u hu
              obtain ⟨v, _, rfl⟩ := List.mem_map.mp hu
              rfl
            have hex2 : hasExistingFollowups s' did = true := by
              rw [← h.2, hasExisting_updateFollowupIds]
              exact hasExisting_createBatch s did _ hne hall
            have hfd2 : findDraft s' did = some
                { draft with
                  followupIds :=
                    (createBatch s
                      (tasks.map (fun t => { t with draftId := did }))).1
                  followupsScheduled := true } := by
              rw [← h.2, findDraft_update, findDraft_createBatch, hfd]
              rfl
            exact scheduleForDraft_skip s' did now2 _ hfd2 hsent sentAt hsa hex2

/-- Witness for claim C4: on a store whose draft `"d1"` already has a
followup task, scheduling returns the skip result and changes nothing, so a
repeated call does the same. -/
theorem schedule_for_draft_idempotent_witness :
    scheduleForDraft alreadyScheduledStore "d1" demoNow =
      some (Except.ok ({ draftId := "d1", scheduledCount := 0, followupIds := [], skippedReason := some "Followups already scheduled" }, alreadyScheduledStore)) :=
  schedule_for_draft_idempotent alreadyScheduledStore "d1" demoNow demoNow
    skipResult alreadyScheduledStore rfl

/-! ## Holiday-set cardinality (claim C5) -/

/-- `dateEq` agrees with propositional equality. -/
theorem dateEq_iff (a b : Date) : dateEq a b = true ↔ a = b := by
  cases a; cases b
  simp [dateEq, Date.mk.injEq, and_assoc]

/-- `containsDate` decides list membership. -/
theorem containsDate_iff (d : Date) (l : List Date) :
    containsDate d l = true ↔ d ∈ l := by
  simp [containsDate, List.any_eq_true, dateEq_iff]

/-- Membership after a set insertion. -/
theorem mem_setInsert (d x : Date) (l : List Date) :
    d ∈ setInsert x l ↔ d ∈ l ∨ d = x := by
  unfold setInsert
  split
  · rename_i hc
    rw [containsDate_iff] at hc
    constructor
    · exact Or.inl
    · rintro (h | rfl)
      · exact h
      · exact hc
  · simp [List.mem_append]

/-- A set insertion grows the list by at most one element. -/
theorem length_setInsert_le (x : Date) (l : List Date) :
    (setInsert x l).length ≤ l.length + 1 := by
  unfold setInsert; split <;> simp

/-- A set insertion never shrinks the list. -/
theorem le_length_setInsert (x : Date) (l : List Date) :
    l.length ≤ (setInsert x l).length := by
  unfold setInsert; split <;> simp

/-- The eight fixed holidays are pairwise distinct, so inserting them into
the empty set yields exactly the fixed-holiday list. -/
theorem foldl_setInsert_fixed (y : Nat) :
    (fixedHolidayDates y).foldl (fun acc d => setInsert d acc) [] =
      fixedHolidayDates y := by
  simp [fixedHolidayDates, setInsert, containsDate, dateEq]

/-- `get_french_holidays` as three set insertions over the fixed list. -/
theorem getFrenchHolidays_eq (y : Nat) :
    getFrenchHolidays y =
      setInsert (addDays (calculateEaster y) 50)
        (setInsert (addDays (calculateEaster y) 39)
          (setInsert (addDays (calculateEaster y) 1) (fixedHolidayDates y))) := by
  simp only [getFrenchHolidays, easterHolidayDates, List.foldl_cons,
    List.foldl_nil]
  rw [foldl_setInsert_fixed]

/-- Amended claim C5: for every year, `get_french_holidays` consists of
exactly the 8 fixed dates together with the 3 Easter-derived dates; it holds
between 8 and 11 distinct dates (11 unless an Easter-derived date collides
with a fixed one, as happens in 2008). -/
theorem french_holidays_union_and_card_bounds (y : Nat) :
    8 ≤ (getFrenchHolidays y).length ∧ (getFrenchHolidays y).length ≤ 11 ∧
    ∀ d : Date, d ∈ getFrenchHolidays y ↔
      (d ∈ fixedHolidayDates y ∨ d ∈ easterHolidayDates y) := by
  have he := getFrenchHolidays_eq y
  have h8 : (fixedHolidayDates y).length = 8 := by simp [fixedHolidayDates]
  refine ⟨?_, ?_, ?_⟩
  · rw [he]
    have l1 := le_length_setInsert (addDays (calculateEaster y) 1)
      (fixedHolidayDates y)
    have l2 := le_length_setInsert (addDays (calculateEaster y) 39)
      (setInsert (addDays (calculateEaster y) 1) (fixedHolidayDates y))
    have l3 := le_length_setInsert (addDays (calculateEaster y) 50)
      (setInsert (addDays (calculateEaster y) 39)
        (setInsert (addDays (calculateEaster y) 1) (fixedHolidayDates y)))
    omega
  · rw [he]
    have l1 := length_setInsert_le (addDays (calculateEaster y) 1)
      (fixedHolidayDates y)
    have l2 := length_setInsert_le (addDays (calculateEaster y) 39)
      (setInsert (addDays (calculateEaster y) 1) (fixedHolidayDates y))
    have l3 := length_setInsert_le (addDays (calculateEaster y) 50)
      (setInsert (addDays (calculateEaster y) 39)
        (setInsert (addDays (calculateEaster y) 1) (fixedHolidayDates y)))
    omega
  · intro d
    rw [he]
    simp only [mem_setInsert, easterHolidayDates, List.mem_cons,
      List.not_mem_nil, or_false]
    rw [or_assoc, or_assoc]

/-- Counterexample to claim C5 as stated: in 2008 Ascension falls on May 1
(Labour Day), so the holiday set has 10 distinct dates, not 11. -/
theorem french_holidays_2008_not_eleven :
    (getFrenchHolidays 2008).length ≠ 11 := by decide

/-! ## Opt-out filtering (claim C6) -/

/-- Amended claim C6: the bulk scheduling path — `get_sent_drafts`, used by
`schedule_all_sent_drafts` — never yields a draft with `no_followup = true`
or with `followup_number ≥ 1`; `schedule_for_draft` itself performs no such
check. -/
theorem get_sent_drafts_excludes_optouts (s : Store) (d : EmailDraft)
    (h : d ∈ getSentDrafts s) :
    d.noFollowup = false ∧ d.isFollowup = false ∧ d.followupNumber = 0 := by
  unfold getSentDrafts at h
  have h2 := (List.mem_filter.mp h).2
  simp only [Bool.and_eq_true] at h2
  obtain ⟨⟨⟨-, hnf⟩, hor⟩, -⟩ := h2
  have hnf2 : d.noFollowup = false := by
    cases hb : d.noFollowup
    · rfl
    · rw [hb] at hnf; exact absurd hnf (by decide)
  have hor2 : (d.isFollowup || decide (0 < d.followupNumber)) = false := by
    cases hb : d.isFollowup || decide (0 < d.followupNumber)
    · rfl
    · rw [hb] at hor; exact absurd hor (by decide)
  rcases Bool.or_eq_false_iff.mp hor2 with ⟨hif, hlt⟩
  refine ⟨hnf2, hif, ?_⟩
  have := of_decide_eq_false hlt
  omega

/-- Witness for the amended claim C6: the eligible draft of `demoStore`
passes the filter and indeed has no opt-out flag and followup number 0. -/
theorem get_sent_drafts_excludes_optouts_witness :
    demoDraft.noFollowup = false ∧ demoDraft.isFollowup = false ∧
      demoDraft.followupNumber = 0 :=
  get_sent_drafts_excludes_optouts demoStore demoDraft (by
    have h : getSentDrafts demoStore = [demoDraft] := rfl
    rw [h]
    exact List.mem_cons_self _ _)

/-- Counterexample to claim C6 as stated: `schedule_for_draft`, called
directly on a sent draft with `no_followup = true`, does not skip it — it
creates all four tasks. -/
theorem schedule_for_draft_ignores_no_followup :
    optOutDraft.noFollowup = true ∧
    scheduledCountOf (scheduleForDraft optOutStore "d2" demoNow) = some 4 ∧
    taskCountAfter (scheduleForDraft optOutStore "d2" demoNow) = some 4 ∧
    optOutStore.followups.length = 0 :=
  ⟨rfl, rfl, rfl, rfl⟩

/-! ## Cancellation behaviour on the long-term task (claim C1) -/

/-- Claim C1 on the code, at its failing input: `cancel_for_draft` on a
draft whose only `scheduled` task has `business_days_after = 180` cancels
that task too (`cancelled_count = 1`) and records no
`cancellation_reason` — instead of keeping the long-term task `scheduled`
and writing `cancellation_reason = "prospect_replied"` on the others. -/
theorem cancel_for_draft_cancels_long_term_task :
    longTermTask.daysAfterInitial = 180 ∧
    longTermTask.status = FollowupStatus.scheduled ∧
    cancelForDraft cancelStore "d1" cancelNow =
      Except.ok ({ draftId := "d1", cancelledCount := 1, success := true, message := "Cancelled 1 followup(s) for draft d1" }, cancelStoreAfter) ∧
    longTermTaskAfter.status = FollowupStatus.cancelled ∧
    longTermTaskAfter.cancellationReason = none :=
  ⟨rfl, rfl, rfl, rfl, rfl⟩

/-! ## Processor behaviour on replied drafts (claim C2) -/

/-- Claim C2 on the code, at its failing input: a due task whose draft has
`has_reply = true` is processed all the way to `done` — the composer is
invoked and the task is not cancelled.  (`process_followup` never reads
`has_reply`.) -/
theorem processor_sends_despite_has_reply :
    repliedDraft.hasReply = true ∧
    processFollowup repliedStore happyEnv dueTask processNow =
      Except.ok ({ followupId := "t1", draftId := "d1", followupNumber := 1, success := true, errorMessage := none }, repliedStoreAfter) ∧
    dueTaskDone.status = FollowupStatus.done ∧
    dueTaskDone.status ≠ FollowupStatus.cancelled :=
  ⟨rfl, rfl, rfl, by decide⟩

/-! ## Per-task error handling (claim C7) -/

/-- Claim C7 on the code, at its failing input: with two due tasks whose
first references a CRM record with an invalid e-mail,
`process_due_followups` aborts with an uncaught `TypeError`
(`ExternalServiceError` called with a single argument), leaving the store
unchanged — the task is not marked `failed` and the second task is never
processed.  A missing `last_name` likewise raises an uncaught `NameError`
(`OdooError` is not imported by `processor.py`). -/
theorem processor_crashes_on_invalid_crm_record :
    containsAtSign badEmailLead.email = false ∧
    (getDueFollowups twoTaskStore processNow).map (fun t => t.docId) = ["t2", "t1"] ∧
    processDueFollowups twoTaskStore badEmailEnv none processNow =
      Except.error (PyCrash.typeError, twoTaskStore) ∧
    noLastNameLead.lastName = "" ∧
    buildEmailRequest twoTaskStore noLastNameEnv brokenCrmTask =
      BuildOutcome.crash PyCrash.nameError :=
  ⟨rfl, rfl, rfl, rfl, rfl⟩

/-! ## Storage of the composer's draft id (claim C8) -/

/-- Claim C8 on the code, at its failing input: a successfully processed
task transitions to `done`, but the draft id returned by the composer
(`"gen-1"`) is discarded — the stored task keeps `draft_id_created = none`.
(`update_status` never writes `draft_id_created`.) -/
theorem processor_discards_composer_draft_id :
    happyResponse.draftId = some "gen-1" ∧
    processFollowup happyStore happyEnv dueTask processNow =
      Except.ok ({ followupId := "t1", draftId := "d1", followupNumber := 1, success := true, errorMessage := none }, happyStoreAfter) ∧
    dueTaskDone.status = FollowupStatus.done ∧
    dueTaskDone.draftIdCreated = none :=
  ⟨rfl, rfl, rfl, rfl⟩

/-! ## Ordering of the e-mail history (claim C9) -/

/-- Claim C9 on the code, at its failing input: with the store returning the
`followup_number = 1` draft before the `followup_number = 0` draft, the
history for a task with followup number 2 comes out in store order — the
sort key `x.get("followup_number", 0)` is always the default 0, since the
history dicts only carry `subject` and `body` — not ascending by
`followup_number` as claimed. -/
theorem email_history_not_ordered_by_followup_number :
    historyDraftLater.followupNumber = 1 ∧
    historyDraftFirst.followupNumber = 0 ∧
    getEmailHistory historyStore "x1" 2 = [⟨"s1", "b1"⟩, ⟨"s0", "b0"⟩] ∧
    getEmailHistory historyStore "x1" 2 ≠ [⟨"s0", "b0"⟩, ⟨"s1", "b1"⟩] :=
  ⟨rfl, rfl, rfl, by decide⟩

/-! ## Circuit breaker (claim C10) -/

/-- Once open, the breaker stays open under recorded outcomes (it leaves
`open` only via the timeout in the `state` property, not via
`_record_success` / `_record_failure`). -/
theorem runEvents_opened_absorbing (cfg : CircuitBreakerConfig) :
    ∀ (events : List CallEvent) (cb : BreakerState), cb.state = .opened →
      (runEvents cfg cb events).state = .opened := by
  intro events
  induction events with
  | nil => intro cb h; exact h
  | cons e rest ih =>
    intro cb h
    rw [runEvents, List.foldl_cons]
    apply ih
    cases e with
    | success =>
      show (recordSuccess cfg cb).state = .opened
      unfold recordSuccess
      rw [h]
      exact h
    | failure ex t =>
      show (recordFailure cfg cb ex t).state = .opened
      unfold recordFailure
      split
      · exact h
      · rw [h]

/-- Unfolding one event of `failuresSinceSuccessFrom`. -/
theorem failuresSinceSuccessFrom_cons (c : Nat) (e : CallEvent)
    (l : List CallEvent) :
    failuresSinceSuccessFrom c (e :: l) =
      failuresSinceSuccessFrom
        (match e with
          | .success => 0
          | .failure ex _ => if ex then c else c + 1) l := by
  cases e with
  | success => rfl
  | failure ex t => cases ex <;> rfl

/-- From a closed breaker with fewer than `failure_threshold` recorded
failures, the run ends open exactly when some event window reaches the
threshold of counted failures with no intervening success. -/
theorem runEvents_closed_open_iff (cfg : CircuitBreakerConfig)
    (hth : 0 < cfg.failureThreshold) :
    ∀ (events : List CallEvent) (cb : BreakerState), cb.state = .closed →
      cb.failureCount < cfg.failureThreshold →
      ((runEvents cfg cb events).state = .opened ↔
        ∃ n, n ≤ events.length ∧
          cfg.failureThreshold ≤
            failuresSinceSuccessFrom cb.failureCount (events.take n)) := by
  intro events
  induction events with
  | nil =>
    intro cb hcl hcnt
    constructor
    · intro h
      rw [runEvents, List.foldl_nil, hcl] at h
      exact absurd h (by decide)
    · rintro ⟨n, hn, hge⟩
      have hn0 : n = 0 := Nat.le_zero.mp hn
      subst hn0
      simp only [List.take_nil, failuresSinceSuccessFrom, List.foldl_nil] at hge
      omega
  | cons e rest ih =>
    intro cb hcl hcnt
    rw [runEvents, List.foldl_cons]
    cases e with
    | success =>
      have hstep : breakerStep cfg cb .success =
          { cb with failureCount := 0 } := by
        show recordSuccess cfg cb = _
        unfold recordSuccess
        rw [hcl]
      rw [hstep]
      have hiff := ih { cb with failureCount := 0 } hcl hth
      constructor
      · intro hrun
        obtain ⟨n, hn, hge⟩ := hiff.mp hrun
        refine ⟨n + 1, by simpa using hn, ?_⟩
        rwa [List.take_succ_cons, failuresSinceSuccessFrom_cons]
      · rintro ⟨n, hn, hge⟩
        cases n with
        | zero =>
          simp only [List.take_zero, failuresSinceSuccessFrom,
            List.foldl_nil] at hge
          omega
        | succ m =>
          rw [List.take_succ_cons, failuresSinceSuccessFrom_cons] at hge
          exact hiff.mpr ⟨m, by simpa using hn, hge⟩
    | failure ex t =>
      cases hex : ex with
      | true =>
        have hstep : breakerStep cfg cb (.failure true t) = cb := by
          show recordFailure cfg cb true t = cb
          unfold recordFailure
          rw [if_pos rfl]
        rw [hstep]
        have hiff := ih cb hcl hcnt
        constructor
        · intro hrun
          obtain ⟨n, hn, hge⟩ := hiff.mp hrun
          refine ⟨n + 1, by simpa using hn, ?_⟩
          rwa [List.take_succ_cons, failuresSinceSuccessFrom_cons]
        · rintro ⟨n, hn, hge⟩
          cases n with
          | zero =>
            simp only [List.take_zero, failuresSinceSuccessFrom,
              List.foldl_nil] at hge
            omega
          | succ m =>
            rw [List.take_succ_cons, failuresSinceSuccessFrom_cons] at hge
            exact hiff.mpr ⟨m, by simpa using hn, hge⟩
      | false =>
        have hstep : breakerStep cfg cb (.failure false t) =
            (if cfg.failureThreshold ≤ cb.failureCount + 1 then
              { cb with failureCount := cb.failureCount + 1,
                        lastFailureTime := some t, state := .opened }
            else
              { cb with failureCount := cb.failureCount + 1,
                        lastFailureTime := some t }) := by
          show recordFailure cfg cb false t = _
          unfold recordFailure
          rw [if_neg (by decide)]
          rw [hcl]
        rw [hstep]
        by_cases hth2 : cfg.failureThreshold ≤ cb.failureCount + 1
        · rw [if_pos hth2]
          refine iff_of_true ?_ ?_
          · exact runEvents_opened_absorbing cfg rest _ rfl
          · refine ⟨1, by simp, ?_⟩
            rw [List.take_succ_cons, List.take_zero, failuresSinceSuccessFrom_cons]
            simpa [failuresSinceSuccessFrom] using hth2
        · rw [if_neg hth2]
          have hiff := ih { cb with failureCount := cb.failureCount + 1, lastFailureTime := some t } hcl
            (by show cb.failureCount + 1 < cfg.failureThreshold; omega)
          constructor
          · intro hrun
            obtain ⟨n, hn, hge⟩ := hiff.mp hrun
            refine ⟨n + 1, by simpa using hn, ?_⟩
            rwa [List.take_succ_cons, failuresSinceSuccessFrom_cons]
          · rintro ⟨n, hn, hge⟩
            cases n with
            | zero =>
              simp only [List.take_zero, failuresSinceSuccessFrom,
                List.foldl_nil] at hge
              omega
            | succ m =>
              rw [List.take_succ_cons, failuresSinceSuccessFrom_cons] at hge
              exact hiff.mpr ⟨m, by simpa using hn, hge⟩

/-- Claim C10: in the closed state every successful call resets the failure
counter to zero, and — starting from a closed breaker with a clean counter —
the circuit reaches `open` exactly when some window of
`failure_threshold` counted failures with no intervening success occurs;
an equal number of non-consecutive failures never opens it. -/
theorem breaker_opens_only_after_consecutive_failures
    (cfg : CircuitBreakerConfig) (hth : 0 < cfg.failureThreshold)
    (cb : BreakerState) (hclosed : cb.state = .closed)
    (events : List CallEvent) :
    (breakerStep cfg cb .success).failureCount = 0 ∧
    (cb.failureCount = 0 →
      ((runEvents cfg cb events).state = .opened ↔
        ∃ n, n ≤ events.length ∧
          cfg.failureThreshold ≤ failuresSinceSuccess (events.take n))) := by
  constructor
  · show (recordSuccess cfg cb).failureCount = 0
    unfold recordSuccess
    rw [hclosed]
  · intro h0
    have := runEvents_closed_open_iff cfg hth events cb hclosed (by omega)
    rw [h0] at this
    exact this

/-- Witness for claim C10 at the composer's breaker configuration (threshold
3): on the event list `[failure, success, failure, failure, failure]` the
breaker opens, and the characterizing window condition holds. -/
theorem breaker_opens_only_after_consecutive_failures_witness :
    (breakerStep composerBreakerConfig freshBreaker .success).failureCount = 0 ∧
    (freshBreaker.failureCount = 0 →
      ((runEvents composerBreakerConfig freshBreaker breakerDemoEvents).state =
          .opened ↔
        ∃ n, n ≤ breakerDemoEvents.length ∧
          composerBreakerConfig.failureThreshold ≤
            failuresSinceSuccess (breakerDemoEvents.take n))) :=
  breaker_opens_only_after_consecutive_failures composerBreakerConfig
    (by decide) freshBreaker rfl breakerDemoEvents

end AutoFollowup
